import Mathlib

/-!
Shallow embedding of `src/spectacles/validators/sql.py` (the SQL validation
engine of spectacles): the Query/SqlTest data model, result parsing
(`_get_query_results` / `_extract_error_details`), result handling
(`_handle_query_result`), the interrupt path of `run_tests`, the chunked
test creation of `_create_explore_test`, and an abstract transition system
for the semaphore-bounded scheduler `_run_tests`.

Python `float` runtimes are modelled as `ℚ`; Python `None` as `Option`;
Python exceptions as `Except`/`Option` results.
-/

namespace Spectacles

/-- `Query` dataclass (sql.py lines 18-22): remote query id, explore URL and
the optionally assigned query task id. -/
structure Query where
  query_id : Int
  explore_url : String
  query_task_id : Option String := none
deriving DecidableEq, Repr

/-- One raw Looker error object, as read by `_extract_error_details`:
`message`, optional `message_details`, optional `sql_error_loc` which in turn
optionally holds `line`. -/
structure ErrObj where
  message : Option String := none
  message_details : Option String := none
  sql_error_loc : Option (Option Int) := none
deriving DecidableEq, Repr

/-- The polymorphic `data` field of a raw query-task result (sql.py lines
425-467): either a dict (with optional `errors` list, optional singular
`error`, optional `sql` and optional `runtime`), a list (of which only the
first element, the bare message, is read), or any other shape. A `none`
inside the `errors` list models a list element that is not a dict (Python
`None` from `data.get("error")`). -/
inductive RawData where
  | dict (errors : Option (List (Option ErrObj))) (error : Option ErrObj)
      (sql : Option String) (runtime : Option ℚ)
  | list (items : List String)
  | other
deriving DecidableEq, Repr

/-- The dict produced by `_extract_error_details` (sql.py line 469):
`{"message": ..., "sql": ..., "line_number": ...}`. -/
structure ExtractedError where
  message : String
  sql : Option String := none
  line_number : Option Int := none
deriving DecidableEq, Repr

/-- `QueryResult` dataclass (sql.py lines 25-32). -/
structure QueryResult where
  query_task_id : String
  status : String
  runtime : Option ℚ := none
  error : Option ExtractedError := none
deriving DecidableEq, Repr

/-- `SqlError` (spectacles.exceptions), as constructed at sql.py lines
411-418 from keyword arguments. -/
structure SqlError where
  model : String
  explore : String
  dimension : Option String
  sql : Option String
  message : String
  line_number : Option Int
  lookml_url : Option String
  explore_url : String
deriving DecidableEq, Repr

/-- The LookML object a test points at (spectacles.lookml `Dimension` or
`Explore`): the discriminator `isDimension` models the
`isinstance(lookml_object, Dimension)` test at sql.py line 405.
`explore_name` is meaningful only for dimensions. The validator mutates only
`errors` and `queried`. -/
structure LookmlRef where
  isDimension : Bool
  model_name : String
  name : String
  explore_name : String := ""
  url : Option String := none
  errors : List SqlError := []
  queried : Bool := false
deriving DecidableEq, Repr

/-- The mutable fields of `SqlTest` (sql.py lines 54-74) used by the
validator: its queries, LookML reference, explore URL, compiled SQL, and the
post-run `status` / `runtime` / `error`. -/
structure SqlTestState where
  queries : List Query
  lookml_ref : LookmlRef
  explore_url : String
  sql : Option String := none
  status : Option String := none
  runtime : Option ℚ := none
  error : Option SqlError := none
deriving DecidableEq, Repr

/-- `SqlTest.lookml_url` (sql.py lines 80-82): `getattr(lookml_ref, "url", None)`. -/
def SqlTestState.lookml_url (t : SqlTestState) : Option String :=
  t.lookml_ref.url

/-- `SqlTest.__hash__` (sql.py lines 106-109): raises `ValueError` when `sql`
is `None`, otherwise hashes the tuple `(model_name, name, sql)`. The Python
hash of a tuple is a function of the tuple, so the hash is modelled by the
tuple itself. -/
def SqlTestState.hash (t : SqlTestState) : Except String (String × String × String) :=
  match t.sql with
  | none => .error "Test has no SQL defined"
  | some s => .ok (t.lookml_ref.model_name, t.lookml_ref.name, s)

/-- The two benign development-mode notices discarded by
`_extract_error_details` (sql.py lines 434-442). -/
def benignMessage1 : String :=
  "Note: This query contains derived tables with conditional SQL for Development Mode. Query results in Production Mode might be different."

def benignMessage2 : String :=
  "Note: This query contains derived tables with Development Mode filters. Query results in Production Mode might be different."

/-- `error.get("message") not in [benign1, benign2]` negated: a message is
benign when it equals one of the two exact notice strings. A missing message
(`None`) is never benign. -/
def isBenignMessage (m : Option String) : Bool :=
  m = some benignMessage1 || m = some benignMessage2

/-- `errors = data.get("errors") or [data.get("error")]` (sql.py line 427):
a missing or empty `errors` list falls back to the singleton holding the
(possibly missing) singular `error`. -/
def effectiveErrors (errors : Option (List (Option ErrObj))) (error : Option ErrObj) :
    List (Option ErrObj) :=
  match errors with
  | some l => if l.isEmpty then [error] else l
  | none => [error]

/-- Outcome of the `next(error for error in errors if ...)` generator at
sql.py lines 429-443: `crash` when a list element is not a dict (Python
`AttributeError` on `.get`), `found` for the first non-benign error object,
`exhausted` (Python `StopIteration`) when every element is benign. -/
inductive FindOutcome where
  | crash
  | found (e : ErrObj)
  | exhausted
deriving DecidableEq, Repr

def findFirstNonBenign : List (Option ErrObj) → FindOutcome
  | [] => .exhausted
  | none :: _ => .crash
  | some e :: rest =>
    if isBenignMessage e.message then findFirstNonBenign rest else .found e

/-- An element of the raw `errors` list that is an error object carrying a
benign message. -/
def isBenignEntry : Option ErrObj → Bool
  | none => false
  | some e => isBenignMessage e.message

/-- Python `sep.join(xs)`: the elements of `xs` concatenated with `sep`
between consecutive elements. -/
def strJoin (sep : String) : List String → String
  | [] => ""
  | [x] => x
  | x :: y :: xs => x ++ sep ++ strJoin sep (y :: xs)

/-- `" ".join(filter(None, [message, message_details]))` (sql.py lines
446-451): Python `filter(None, ...)` keeps only truthy elements, dropping
both `None` and the empty string. -/
def joinMessage (m md : Option String) : String :=
  strJoin " " (([m, md].filterMap id).filter (fun s => !(s = "")))

/-- `sql_error_loc` handling (sql.py lines 453-457): the line number is
`error_loc.get("line")` when `sql_error_loc` is present, else `None`. -/
def locLine : Option (Option Int) → Option Int
  | some line => line
  | none => none

/-- `SqlValidator._extract_error_details` (sql.py lines 422-469).
`Except.error ()` models a raised Python exception (AttributeError on a
non-dict list element, IndexError on an empty list, TypeError on any other
shape) — all converted upstream to `unexpected-query-result-format`.
`.ok none` models `return None` when every reported error is benign. -/
def extract_error_details : RawData → Except Unit (Option ExtractedError)
  | .dict errors error sql _ =>
    match findFirstNonBenign (effectiveErrors errors error) with
    | .crash => .error ()
    | .exhausted => .ok none
    | .found e =>
      .ok (some { message := joinMessage e.message e.message_details
                  sql := sql
                  line_number := locLine e.sql_error_loc })
  | .list items =>
    match items with
    | [] => .error ()
    | m :: _ => .ok (some { message := m, sql := none, line_number := none })
  | .other => .error ()

/-- The known query-task statuses (sql.py line 350). -/
def statusKnown (s : String) : Bool :=
  s = "complete" || s = "error" || s = "running" || s = "added" || s = "expired"

/-- The failure modes of per-result processing in `_get_query_results`:
`unexpectedStatus` (sql.py lines 351-358), `unexpectedFormat` (lines
374-378), and `uncaught` for a Python exception the code does not convert
(the `result["data"]["runtime"]` subscript raises `TypeError` on non-dict
data; only `KeyError` is caught at lines 361-364). -/
inductive PipelineError where
  | unexpectedStatus
  | unexpectedFormat
  | uncaught
deriving DecidableEq, Repr

/-- `float(result["data"]["runtime"])` under `except KeyError` (sql.py lines
361-364): a dict yields its optional runtime; any other `data` raises
`TypeError`, which the code does not catch. -/
def getRuntime : RawData → Except Unit (Option ℚ)
  | .dict _ _ _ runtime => .ok runtime
  | _ => .error ()

/-- Per-result body of `SqlValidator._get_query_results` (sql.py lines
348-381): check the status, extract the runtime, and on an `error` status
extract the error details. -/
def process_result (query_task_id : String) (status : String) (data : RawData) :
    Except PipelineError QueryResult :=
  if !statusKnown status then .error .unexpectedStatus
  else
    match getRuntime data with
    | .error _ => .error .uncaught
    | .ok runtime =>
      if status = "error" then
        match extract_error_details data with
        | .error _ => .error .unexpectedFormat
        | .ok err =>
          .ok { query_task_id := query_task_id, status := status,
                runtime := runtime, error := err }
      else
        .ok { query_task_id := query_task_id, status := status,
              runtime := runtime, error := none }

/-- `SqlValidator._cancel_queries` (sql.py lines 471-474): one
`client.cancel_query_task` call per task id, in order; the returned list is
the trace of cancel calls. -/
def cancel_queries (query_task_ids : List String) : List String :=
  query_task_ids

/-- The interrupt message built in `run_tests` (sql.py lines 287-295). -/
def interruptMessage (n : Nat) : String :=
  if n = 0 then "No queries were running at the time so nothing was cancelled."
  else
    "Attempted to cancel " ++ toString n ++ " running "
      ++ (if n = 1 then "query" else "queries") ++ "."

/-- The `KeyboardInterrupt` handler of `run_tests` (sql.py lines 281-300):
cancel every outstanding task id and raise a `validation-keyboard-interrupt`
`SpectaclesException` whose detail is `interruptMessage`. -/
def handle_interrupt (outstanding : List String) : List String × String :=
  (cancel_queries outstanding, interruptMessage outstanding.length)

/-- `ProfilerResult` dataclass (sql.py lines 35-41). -/
structure ProfilerEntry where
  lookml_obj : LookmlRef
  runtime : ℚ
  query : Query
deriving DecidableEq, Repr

/-- The validator state touched by `_handle_query_result`: the test being
resolved (already popped from `_test_by_task_id`), the
`_preemptive_cancellations` list and the `_long_running_tests` list
(sql.py lines 188-190). -/
structure HandleState where
  test : SqlTestState
  preemptive_cancellations : List Query := []
  long_running_tests : List ProfilerEntry := []
deriving DecidableEq, Repr

/-- `SqlTest.get_query_by_task_id` (sql.py lines 124-128): the first query
whose assigned task id matches; `none` models the raised `KeyError`. -/
def get_query_by_task_id (t : SqlTestState) (query_task_id : String) : Option Query :=
  t.queries.find? (fun q => q.query_task_id == some query_task_id)

/-- `SqlValidator._handle_query_result` (sql.py lines 384-420): record the
status, accumulate the runtime (`(test.runtime or 0.0) + (result.runtime or
0.0)`), set `queried` on the LookML reference, append a profiler entry when
the result's runtime is nonzero and at least `runtime_threshold` (a missing
matching query raises `KeyError`, modelled as `none`), and on an `error`
status with extracted error details: in fail-fast mode put every query of
the test on the preemptive-cancellation list, then build one `SqlError` from
the details and append it to the reference's error list. -/
def handle_query_result (s : HandleState) (result : QueryResult)
    (fail_fast : Bool) (runtime_threshold : ℚ) : Option HandleState :=
  let test1 : SqlTestState :=
    { s.test with
      status := some result.status
      runtime := some (s.test.runtime.getD 0 + result.runtime.getD 0) }
  let lookml1 : LookmlRef := { test1.lookml_ref with queried := true }
  let test2 : SqlTestState := { test1 with lookml_ref := lookml1 }
  let profiled : Option (List ProfilerEntry) :=
    match result.runtime with
    | some r =>
      if r ≠ 0 ∧ runtime_threshold ≤ r then
        match get_query_by_task_id test2 result.query_task_id with
        | some q => some (s.long_running_tests ++ [⟨lookml1, r, q⟩])
        | none => none
      else some s.long_running_tests
    | none => some s.long_running_tests
  match profiled with
  | none => none
  | some lr =>
    match result.error with
    | some err =>
      if result.status = "error" then
        let preemptive : List Query :=
          if fail_fast then s.preemptive_cancellations ++ test2.queries
          else s.preemptive_cancellations
        let names : String × Option String :=
          if lookml1.isDimension then (lookml1.explore_name, some lookml1.name)
          else (lookml1.name, none)
        let sql_error : SqlError :=
          { model := lookml1.model_name
            explore := names.1
            dimension := names.2
            sql := err.sql
            message := err.message
            line_number := err.line_number
            lookml_url := test2.lookml_url
            explore_url := test2.explore_url }
        let lookml2 : LookmlRef := { lookml1 with errors := lookml1.errors ++ [sql_error] }
        some { test := { test2 with error := some sql_error, lookml_ref := lookml2 }
               preemptive_cancellations := preemptive
               long_running_tests := lr }
      else
        some { test := test2
               preemptive_cancellations := s.preemptive_cancellations
               long_running_tests := lr }
    | none =>
      some { test := test2
             preemptive_cancellations := s.preemptive_cancellations
             long_running_tests := lr }

/-- Sequential handling of a list of terminal results for one test: each
result is dispatched to `handle_query_result` in order (sql.py lines
334-337 dispatch one terminal result at a time). -/
def handle_all (s : HandleState) (results : List QueryResult)
    (fail_fast : Bool) (runtime_threshold : ℚ) : Option HandleState :=
  match results with
  | [] => some s
  | r :: rest =>
    match handle_query_result s r fail_fast runtime_threshold with
    | none => none
    | some s1 => handle_all s1 rest fail_fast runtime_threshold

/-- Outcome of one `run_query` coroutine (sql.py lines 316-323): whether the
semaphore slot was acquired, whether it was released inside the coroutine,
and the task id registered by `create_query_task` (none when no remote task
was created). -/
structure LaunchResult where
  acquired : Bool
  released : Bool
  created_task : Option String
deriving DecidableEq, Repr

/-- The `run_query` coroutine body (sql.py lines 316-323): acquire the
semaphore slot; if the query is on the preemptive-cancellation list, release
the slot and return without calling `create_query_task`; otherwise create
the remote query task (which assigns `task_id`) while keeping the slot. -/
def run_query_launch (preemptive : List Query) (q : Query) (task_id : String) :
    LaunchResult :=
  if q ∈ preemptive then { acquired := true, released := true, created_task := none }
  else { acquired := true, released := false, created_task := some task_id }

/-- Modelled from the spec: `chunks` from `spectacles.utils` is not under
`src/`; the spec (§4.1, §6) describes it as yielding "consecutive windows of
`chunk_size`". A window size of 0 yields no windows (Python would reject a
zero step). -/
def chunks {α : Type} (l : List α) (size : Nat) : List (List α) :=
  if h : l.isEmpty ∨ size = 0 then []
  else l.take size :: chunks (l.drop size) size
termination_by l.length
decreasing_by
  rw [List.length_drop]
  rw [not_or, List.isEmpty_iff] at h
  have hlen : 0 < l.length := List.length_pos.mpr h.1
  omega

/-- The execution-query construction of `SqlValidator._create_explore_test`
(sql.py lines 236-248): when there are more dimensions than `chunk_size`,
separate chunked queries are created, one per consecutive window of
`chunk_size` dimension names; otherwise the single main query over all the
dimensions is the only execution query. The result lists the dimension
names of each execution query, in order. -/
def execution_query_dimensions (dimensions : List String) (chunk_size : Nat) :
    List (List String) :=
  if chunk_size < dimensions.length then chunks dimensions chunk_size
  else [dimensions]

/-- Abstract state of the `_run_tests` scheduler (sql.py lines 305-342):
`pending` queries whose `run_query` coroutine has not yet acquired a slot,
`launching` coroutines holding a semaphore slot with no remote task created
yet, `inFlight` created remote query tasks with no terminal status observed
yet, and the semaphore's current count `semCount`. -/
structure SchedState where
  pending : Nat
  launching : Nat
  inFlight : Nat
  semCount : Nat
deriving DecidableEq, Repr

/-- Initial scheduler state: `n` queries to run, nothing launched, the
semaphore at capacity `concurrency` (sql.py line 314). -/
def SchedState.init (n concurrency : Nat) : SchedState :=
  { pending := n, launching := 0, inFlight := 0, semCount := concurrency }

/-- One atomic step of the `_run_tests` event loop:
`acquire` is `await query_slot.acquire()` (sql.py line 317); `cancelRelease`
is the preemptive-cancellation early return, which releases the slot without
creating a task (lines 318-320); `createTask` is `create_query_task`
registering a remote task while the slot stays held (lines 321-323);
`terminal` is a polled `complete`/`error` status releasing the slot (lines
335-337); `poll` is a `running`/`added`/`expired` poll, which neither
releases the slot nor removes the task. -/
inductive SchedStep : SchedState → SchedState → Prop where
  | acquire (s : SchedState) (hp : 0 < s.pending) (hs : 0 < s.semCount) :
      SchedStep s
        { pending := s.pending - 1, launching := s.launching + 1,
          inFlight := s.inFlight, semCount := s.semCount - 1 }
  | cancelRelease (s : SchedState) (hl : 0 < s.launching) :
      SchedStep s
        { pending := s.pending, launching := s.launching - 1,
          inFlight := s.inFlight, semCount := s.semCount + 1 }
  | createTask (s : SchedState) (hl : 0 < s.launching) :
      SchedStep s
        { pending := s.pending, launching := s.launching - 1,
          inFlight := s.inFlight + 1, semCount := s.semCount }
  | terminal (s : SchedState) (hf : 0 < s.inFlight) :
      SchedStep s
        { pending := s.pending, launching := s.launching,
          inFlight := s.inFlight - 1, semCount := s.semCount + 1 }
  | poll (s : SchedState) : SchedStep s s

/-- The states the `_run_tests` scheduler can reach from its initial state
by any interleaving of its atomic steps. -/
def SchedReachable (n concurrency : Nat) (s : SchedState) : Prop :=
  Relation.ReflTransGen SchedStep (SchedState.init n concurrency) s

/-- A concrete explore-level LookML reference used to instantiate theorems
at concrete inputs. -/
def sampleLookml : LookmlRef :=
  { isDimension := false, model_name := "m", name := "e" }

/-- A concrete query with an assigned task id. -/
def sampleQuery : Query :=
  { query_id := 1, explore_url := "u", query_task_id := some "task_a" }

/-- A concrete explore-level test over `sampleQuery`. -/
def sampleTest : SqlTestState :=
  { queries := [sampleQuery], lookml_ref := sampleLookml, explore_url := "u" }

/-- A concrete validator state holding `sampleTest`. -/
def sampleState : HandleState :=
  { test := sampleTest }

/-- A raw error result reporting two non-benign errors. -/
def twoErrorRaw : RawData :=
  .dict (some [some { message := some "error A" }, some { message := some "error B" }])
    none (some "SELECT 1") none

/-- The `QueryResult` the pipeline builds from `twoErrorRaw` for task
`task_a`: only the first non-benign reported error survives extraction. -/
def twoErrorResult : QueryResult :=
  { query_task_id := "task_a", status := "error", runtime := none,
    error := some { message := "error A", sql := some "SELECT 1", line_number := none } }

/-- The single SqlError the code attributes for `twoErrorRaw` on
`sampleTest`: built from the first reported error only. -/
def sampleSqlError : SqlError :=
  { model := "m", explore := "e", dimension := none, sql := some "SELECT 1",
    message := "error A", line_number := none, lookml_url := none, explore_url := "u" }

/-- The validator state after `_handle_query_result` processes
`twoErrorResult` on `sampleState` in fail-fast mode. -/
def sampleStateAfterError : HandleState :=
  { test := { sampleTest with
      status := some "error"
      runtime := some (0 + 0)
      lookml_ref := { sampleLookml with queried := true, errors := [sampleSqlError] }
      error := some sampleSqlError }
    preemptive_cancellations := [sampleQuery]
    long_running_tests := [] }


/-- A concrete error object with message, details and a sql_error_loc line. -/
def locatedErr : ErrObj :=
  { message := some "boom", message_details := some "deets", sql_error_loc := some (some 7) }

/-- A concrete test with compiled SQL, for hashing. -/
def hashTest1 : SqlTestState := { sampleTest with sql := some "SELECT 1" }

/-- A test differing from `hashTest1` everywhere except the hashed triple
(model_name, name, sql). -/
def hashTest2 : SqlTestState :=
  { queries := []
    lookml_ref := { isDimension := true, model_name := "m", name := "e", explore_name := "x" }
    explore_url := "other"
    sql := some "SELECT 1" }

/-- A terminal `complete` result with runtime 1 for task `task_a`. -/
def completeResult1 : QueryResult :=
  { query_task_id := "task_a", status := "complete", runtime := some 1, error := none }

/-- A terminal `complete` result with runtime 2 for task `task_a`. -/
def completeResult2 : QueryResult :=
  { query_task_id := "task_a", status := "complete", runtime := some 2, error := none }

/-- The validator state after `sampleState` handles `completeResult1` then
`completeResult2` (runtime threshold 5, so no profiler entry). -/
def sampleStateAfterRuns : HandleState :=
  { test := { sampleTest with
      status := some "complete"
      runtime := some (0 + 1 + 2)
      lookml_ref := { sampleLookml with queried := true } } }

/-! Helper lemmas about `chunks`. -/

theorem chunks_flatten {α : Type} (size : Nat) (hpos : 0 < size) :
    ∀ (n : Nat) (l : List α), l.length = n → (chunks l size).flatten = l := by
  intro n
  induction n using Nat.strong_induction_on with
  | _ n ih =>
    intro l hn
    rw [chunks]
    by_cases he : l = []
    · simp [he]
    · have hcond : ¬ (l.isEmpty = true ∨ size = 0) := by
        rw [not_or, List.isEmpty_iff]
        exact ⟨he, by omega⟩
      rw [dif_neg hcond, List.flatten_cons]
      have hpos2 : 0 < l.length := List.length_pos.mpr he
      have hlt : (l.drop size).length < n := by
        rw [List.length_drop]
        omega
      rw [ih (l.drop size).length hlt (l.drop size) rfl]
      exact List.take_append_drop size l

theorem chunks_mem {α : Type} (size : Nat) (hpos : 0 < size) :
    ∀ (n : Nat) (l : List α), l.length = n →
      ∀ w ∈ chunks l size, w ≠ [] ∧ w.length ≤ size := by
  intro n
  induction n using Nat.strong_induction_on with
  | _ n ih =>
    intro l hn w hw
    rw [chunks] at hw
    by_cases he : l = []
    · simp [he] at hw
    · have hcond : ¬ (l.isEmpty = true ∨ size = 0) := by
        rw [not_or, List.isEmpty_iff]
        exact ⟨he, by omega⟩
      rw [dif_neg hcond] at hw
      have hpos2 : 0 < l.length := List.length_pos.mpr he
      rcases List.mem_cons.mp hw with h1 | h2
      · subst h1
        have h1 := List.length_take size l
        rw [inf_eq_min] at h1
        constructor
        · have hmin : 0 < (l.take size).length := by omega
          exact List.ne_nil_of_length_pos hmin
        · omega
      · have hlt : (l.drop size).length < n := by
          rw [List.length_drop]
          omega
        exact ih (l.drop size).length hlt (l.drop size) rfl w h2

theorem chunks_dropLast {α : Type} (size : Nat) (hpos : 0 < size) :
    ∀ (n : Nat) (l : List α), l.length = n →
      ∀ w ∈ (chunks l size).dropLast, w.length = size := by
  intro n
  induction n using Nat.strong_induction_on with
  | _ n ih =>
    intro l hn w hw
    rw [chunks] at hw
    by_cases he : l = []
    · simp [he] at hw
    · have hcond : ¬ (l.isEmpty = true ∨ size = 0) := by
        rw [not_or, List.isEmpty_iff]
        exact ⟨he, by omega⟩
      rw [dif_neg hcond] at hw
      have hpos2 : 0 < l.length := List.length_pos.mpr he
      by_cases hdrop : l.drop size = []
      · rw [chunks] at hw
        simp [hdrop] at hw
      · have hrec : chunks (l.drop size) size ≠ [] := by
          rw [chunks]
          have hc2 : ¬ ((l.drop size).isEmpty = true ∨ size = 0) := by
            rw [not_or, List.isEmpty_iff]
            exact ⟨hdrop, by omega⟩
          rw [dif_neg hc2]
          exact List.cons_ne_nil _ _
        rw [List.dropLast_cons_of_ne_nil hrec] at hw
        have hsz : size < l.length := by
          have hp3 : 0 < (l.drop size).length := List.length_pos.mpr hdrop
          rw [List.length_drop] at hp3
          omega
        rcases List.mem_cons.mp hw with h1 | h2
        · subst h1
          have h1 := List.length_take size l
          rw [inf_eq_min] at h1
          omega
        · have hlt : (l.drop size).length < n := by
            rw [List.length_drop]
            omega
          exact ih (l.drop size).length hlt (l.drop size) rfl w h2

/-- C1 counterexample: the claim describes a `divide()` with an
errored-query precondition and a two-halves split at the midpoint; the code
has no such operation. Its chunking analogue, the execution-query
construction of `_create_explore_test`, produces for an errored-eligible
query of two dimensions (with the default `chunk_size` of 500) a single
query over both dimensions — not the two halves `[["a"], ["b"]]` the claim
requires — and does so with no `errored` precondition at all. -/
theorem claim_C1_counterexample :
    execution_query_dimensions ["a", "b"] 500 = [["a", "b"]] ∧
    execution_query_dimensions ["a", "b"] 500 ≠ [["a"], ["b"]] := by
  constructor
  · rfl
  · decide

/-- C1 (amended): query subdivision happens up front in
`_create_explore_test`, not on error: for a positive `chunk_size`, the
execution queries' dimension lists concatenate to exactly the explore's
dimension list (order preserved, no duplication, no loss); when
`|dimensions| ≤ chunk_size` there is exactly one query over all dimensions;
when `|dimensions| > chunk_size` the queries are the consecutive windows of
`chunk_size` dimensions (every window nonempty and of length at most
`chunk_size`, and every window but the last of length exactly
`chunk_size`). There is no `errored` precondition and no `InvalidState`
failure. -/
theorem claim_C1 (dimensions : List String) (chunk_size : Nat)
    (hpos : 0 < chunk_size) :
    (execution_query_dimensions dimensions chunk_size).flatten = dimensions ∧
    (dimensions.length ≤ chunk_size →
      execution_query_dimensions dimensions chunk_size = [dimensions]) ∧
    (chunk_size < dimensions.length →
      execution_query_dimensions dimensions chunk_size = chunks dimensions chunk_size) ∧
    (∀ w ∈ chunks dimensions chunk_size, w ≠ [] ∧ w.length ≤ chunk_size) ∧
    (∀ w ∈ (chunks dimensions chunk_size).dropLast, w.length = chunk_size) := by
  refine ⟨?_, ?_, ?_, ?_, ?_⟩
  · unfold execution_query_dimensions
    by_cases hc : chunk_size < dimensions.length
    · rw [if_pos hc]
      exact chunks_flatten chunk_size hpos dimensions.length dimensions rfl
    · rw [if_neg hc]
      simp
  · intro hle
    unfold execution_query_dimensions
    rw [if_neg (by omega)]
  · intro hlt
    unfold execution_query_dimensions
    rw [if_pos hlt]
  · exact chunks_mem chunk_size hpos dimensions.length dimensions rfl
  · exact chunks_dropLast chunk_size hpos dimensions.length dimensions rfl

/-- Witness for C1 at a concrete input: three dimensions, `chunk_size = 2`. -/
theorem claim_C1_witness :
    0 < 2 ∧
    ((execution_query_dimensions ["a", "b", "c"] 2).flatten = ["a", "b", "c"] ∧
     (["a", "b", "c"].length ≤ 2 →
       execution_query_dimensions ["a", "b", "c"] 2 = [["a", "b", "c"]]) ∧
     (2 < ["a", "b", "c"].length →
       execution_query_dimensions ["a", "b", "c"] 2 = chunks ["a", "b", "c"] 2) ∧
     (∀ w ∈ chunks ["a", "b", "c"] 2, w ≠ [] ∧ w.length ≤ 2) ∧
     (∀ w ∈ (chunks ["a", "b", "c"] 2).dropLast, w.length = 2)) :=
  ⟨by decide, claim_C1 ["a", "b", "c"] 2 (by decide)⟩

/-- C2: at every reachable state of the `_run_tests` scheduler, the number
of in-flight remote query tasks is at most `concurrency`; a slot is held for
the whole window from acquisition (before `create_query_task`) to the first
observation of a `complete`/`error` status (the `terminal` step is the only
task-removing, slot-releasing step; `poll` steps for `running`/`added`
release nothing); and once nothing is launching and nothing is in flight the
semaphore count is back to `concurrency`. -/
theorem claim_C2 (n concurrency : Nat) (s : SchedState)
    (h : SchedReachable n concurrency s) :
    s.inFlight ≤ concurrency ∧
    s.launching + s.inFlight + s.semCount = concurrency ∧
    (s.launching = 0 → s.inFlight = 0 → s.semCount = concurrency) := by
  have key : s.launching + s.inFlight + s.semCount = concurrency := by
    induction h with
    | refl => simp [SchedState.init]
    | tail hab hstep ih =>
      cases hstep with
      | acquire hp hs => simp only at ih ⊢; omega
      | cancelRelease hl => simp only at ih ⊢; omega
      | createTask hl => simp only at ih ⊢; omega
      | terminal hf => simp only at ih ⊢; omega
      | poll => exact ih
  exact ⟨by omega, key, by omega⟩

/-- Witness for C2: a concrete two-step run (acquire a slot, create the
task) from 3 pending queries at concurrency 10 reaches a state with one
task in flight satisfying all three conclusions. -/
theorem claim_C2_witness :
    SchedState.inFlight
        { pending := 2, launching := 0, inFlight := 1, semCount := 9 } ≤ 10 ∧
    SchedState.launching
          { pending := 2, launching := 0, inFlight := 1, semCount := 9 }
        + SchedState.inFlight
          { pending := 2, launching := 0, inFlight := 1, semCount := 9 }
        + SchedState.semCount
          { pending := 2, launching := 0, inFlight := 1, semCount := 9 } = 10 ∧
    (SchedState.launching
        { pending := 2, launching := 0, inFlight := 1, semCount := 9 } = 0 →
     SchedState.inFlight
        { pending := 2, launching := 0, inFlight := 1, semCount := 9 } = 0 →
     SchedState.semCount
        { pending := 2, launching := 0, inFlight := 1, semCount := 9 } = 10) :=
  claim_C2 3 10 { pending := 2, launching := 0, inFlight := 1, semCount := 9 }
    (Relation.ReflTransGen.tail
      (Relation.ReflTransGen.tail Relation.ReflTransGen.refl
        (SchedStep.acquire (SchedState.init 3 10) (by decide) (by decide)))
      (SchedStep.createTask
        { pending := 2, launching := 1, inFlight := 0, semCount := 9 } (by decide)))

theorem findFirstNonBenign_all_benign :
    ∀ (l : List (Option ErrObj)), (∀ x ∈ l, isBenignEntry x = true) →
      findFirstNonBenign l = .exhausted := by
  intro l
  induction l with
  | nil => intro _; rfl
  | cons x rest ih =>
    intro hall
    match x with
    | none =>
      have hx := hall none (List.mem_cons_self _ _)
      simp [isBenignEntry] at hx
    | some e =>
      have hb := hall (some e) (List.mem_cons_self _ _)
      simp only [isBenignEntry] at hb
      simp only [findFirstNonBenign, hb, if_true]
      exact ih (fun y hy => hall y (List.mem_cons_of_mem _ hy))

/-- C3: when every reported error of an error result carries one of the two
exact benign development-mode notices, extraction returns no details
(`return None`), so `_handle_query_result` attributes no SqlError to any
reference (the reference's `errors` list and the test's `error` are
unchanged) — yet the test is still recorded as errored (`status = "error"`,
`queried = true`). Benign errors are skipped during the search for the
first attributable error. -/
theorem claim_C3 (l : List (Option ErrObj)) (hne : l ≠ [])
    (hall : ∀ x ∈ l, isBenignEntry x = true)
    (eo : Option ErrObj) (sq : Option String) (rt : Option ℚ)
    (s : HandleState) (tid : String) (ff : Bool) (th : ℚ) :
    extract_error_details (.dict (some l) eo sq rt) = .ok none ∧
    (∃ s', handle_query_result s
        { query_task_id := tid, status := "error", runtime := none, error := none }
        ff th = some s' ∧
      s'.test.lookml_ref.errors = s.test.lookml_ref.errors ∧
      s'.test.error = s.test.error ∧
      s'.test.status = some "error" ∧
      s'.test.lookml_ref.queried = true) ∧
    (∀ (e : ErrObj) (rest : List (Option ErrObj)),
      isBenignMessage e.message = true →
      findFirstNonBenign (some e :: rest) = findFirstNonBenign rest) := by
  refine ⟨?_, ⟨_, rfl, rfl, rfl, rfl, rfl⟩, ?_⟩
  · have heff : effectiveErrors (some l) eo = l := by
      simp [effectiveErrors, List.isEmpty_iff, hne]
    simp only [extract_error_details, heff, findFirstNonBenign_all_benign l hall]
  · intro e rest hb
    simp only [findFirstNonBenign, hb, if_true]

/-- Witness for C3: a single reported error carrying the first benign
notice, handled on the concrete `sampleState`. -/
theorem claim_C3_witness :
    ([some { message := some benignMessage1 }] : List (Option ErrObj)) ≠ [] ∧
    (∀ x ∈ ([some { message := some benignMessage1 }] : List (Option ErrObj)),
      isBenignEntry x = true) ∧
    (extract_error_details
        (.dict (some [some { message := some benignMessage1 }]) none none none) = .ok none ∧
     (∃ s', handle_query_result sampleState
          { query_task_id := "task_a", status := "error", runtime := none, error := none }
          false 5 = some s' ∧
        s'.test.lookml_ref.errors = sampleState.test.lookml_ref.errors ∧
        s'.test.error = sampleState.test.error ∧
        s'.test.status = some "error" ∧
        s'.test.lookml_ref.queried = true) ∧
     (∀ (e : ErrObj) (rest : List (Option ErrObj)),
        isBenignMessage e.message = true →
        findFirstNonBenign (some e :: rest) = findFirstNonBenign rest)) :=
  ⟨by decide, by decide,
    claim_C3 [some { message := some benignMessage1 }] (by decide) (by decide)
      none none none sampleState "task_a" false 5⟩

/-- C4 counterexample: the claim requires one SqlError appended per
reported error, but `_extract_error_details` keeps only the *first*
non-benign reported error: for a result reporting two errors ("error A" and
"error B"), fail-fast handling appends exactly 1 SqlError, not 2. -/
theorem claim_C4_counterexample :
    extract_error_details twoErrorRaw =
      .ok (some { message := "error A", sql := some "SELECT 1", line_number := none }) ∧
    (handle_query_result sampleState twoErrorResult true 5).map
        (fun s => s.test.lookml_ref.errors.length) = some 1 ∧
    (1 : Nat) ≠ 2 := by
  refine ⟨rfl, rfl, by decide⟩

/-- C4 (amended): in fail-fast mode, when a query's terminal status is
error and error details were extracted, the explore's `queried` flag is set
and exactly one SqlError — built from the first non-benign reported error —
is appended to the explore's errors list; every query of the test is placed
on the preemptive-cancellation list, and no subdivision is performed (none
exists in the code). -/
theorem claim_C4 (s s' : HandleState) (result : QueryResult) (err : ExtractedError)
    (th : ℚ) (hstatus : result.status = "error") (herr : result.error = some err)
    (hexp : s.test.lookml_ref.isDimension = false)
    (h : handle_query_result s result true th = some s') :
    s'.test.lookml_ref.queried = true ∧
    s'.test.lookml_ref.errors = s.test.lookml_ref.errors ++
      [{ model := s.test.lookml_ref.model_name
         explore := s.test.lookml_ref.name
         dimension := none
         sql := err.sql
         message := err.message
         line_number := err.line_number
         lookml_url := s.test.lookml_ref.url
         explore_url := s.test.explore_url }] ∧
    s'.preemptive_cancellations = s.preemptive_cancellations ++ s.test.queries := by
  unfold handle_query_result at h
  rw [herr, hstatus] at h
  simp only [if_pos rfl, if_true] at h
  split at h
  · exact absurd h (by simp)
  · rw [Option.some_inj] at h
    subst h
    refine ⟨rfl, ?_, rfl⟩
    simp [hexp, SqlTestState.lookml_url]

/-- Witness for C4: the two-error result handled on `sampleState` in
fail-fast mode. -/
theorem claim_C4_witness :
    sampleStateAfterError.test.lookml_ref.queried = true ∧
    sampleStateAfterError.test.lookml_ref.errors =
      sampleState.test.lookml_ref.errors ++
        [{ model := sampleState.test.lookml_ref.model_name
           explore := sampleState.test.lookml_ref.name
           dimension := none
           sql := some "SELECT 1"
           message := "error A"
           line_number := none
           lookml_url := sampleState.test.lookml_ref.url
           explore_url := sampleState.test.explore_url }] ∧
    sampleStateAfterError.preemptive_cancellations =
      sampleState.preemptive_cancellations ++ sampleState.test.queries :=
  claim_C4 sampleState sampleStateAfterError twoErrorResult
    { message := "error A", sql := some "SELECT 1", line_number := none }
    5 rfl rfl rfl rfl

/-- C5: on interrupt with any `n` outstanding query tasks,
`cancel_query_task` is called once for each outstanding task id, in order;
for every nonempty outstanding list the raised exception's message carries
the cancel count (`n` spelled out, with the singular/plural suffix); and for
`n = 20` it is exactly "Attempted to cancel 20 running queries.". -/
theorem claim_C5 (outstanding : List String) :
    (handle_interrupt outstanding).1 = outstanding ∧
    (outstanding ≠ [] →
      (handle_interrupt outstanding).2 =
        "Attempted to cancel " ++ toString outstanding.length ++ " running "
          ++ (if outstanding.length = 1 then "query" else "queries") ++ ".") ∧
    (outstanding.length = 20 →
      (handle_interrupt outstanding).2 = "Attempted to cancel 20 running queries.") := by
  refine ⟨rfl, ?_, ?_⟩
  · intro h
    have hn : outstanding.length ≠ 0 := by
      simpa [List.length_eq_zero] using h
    show interruptMessage outstanding.length = _
    rw [interruptMessage, if_neg hn]
  · intro h20
    show interruptMessage outstanding.length = _
    rw [h20]
    rfl

/-- Witness for C5: twenty outstanding task ids. -/
theorem claim_C5_witness :
    (handle_interrupt (List.replicate 20 "task_a")).1 = List.replicate 20 "task_a" ∧
    (List.replicate 20 "task_a" : List String) ≠ [] ∧
    (handle_interrupt (List.replicate 20 "task_a")).2 =
      "Attempted to cancel " ++ toString (List.replicate 20 "task_a").length ++ " running "
        ++ (if (List.replicate 20 "task_a").length = 1 then "query" else "queries") ++ "." ∧
    (List.replicate 20 "task_a").length = 20 ∧
    (handle_interrupt (List.replicate 20 "task_a")).2 =
      "Attempted to cancel 20 running queries." :=
  ⟨(claim_C5 (List.replicate 20 "task_a")).1, by decide,
   (claim_C5 (List.replicate 20 "task_a")).2.1 (by decide),
   by decide,
   (claim_C5 (List.replicate 20 "task_a")).2.2 (by decide)⟩

/-- C6 counterexample: the claim's message rule — space-joined concatenation
with only *null* components dropped — predicts " x" for a raw error with
message "" and message_details "x" (the space-join of ["", "x"]); the code's
`filter(None, ...)` also drops *empty strings*, producing "x". -/
theorem claim_C6_counterexample :
    strJoin " " ["", "x"] = " x" ∧
    extract_error_details
        (.dict (some [some { message := some "", message_details := some "x" }]) none none none)
      = .ok (some { message := "x", sql := none, line_number := none }) ∧
    ("x" : String) ≠ " x" := by
  refine ⟨rfl, rfl, by decide⟩

/-- C6 (amended): for the attributed (first non-benign) error, the message
is the space-joined concatenation of `message` and `message_details` with
null *and empty-string* components dropped; the line number is
`sql_error_loc.line` when `sql_error_loc` is present and null otherwise; and
when the raw result's `data` is a list, the message is the list's first
element. -/
theorem claim_C6 (l : List (Option ErrObj)) (e : ErrObj) (eo : Option ErrObj)
    (sq : Option String) (rt : Option ℚ)
    (hne : l ≠ []) (hfind : findFirstNonBenign l = .found e) :
    extract_error_details (.dict (some l) eo sq rt) =
      .ok (some { message := joinMessage e.message e.message_details
                  sql := sq
                  line_number := locLine e.sql_error_loc }) ∧
    (∀ m md : String, m ≠ "" → md ≠ "" →
      joinMessage (some m) (some md) = m ++ " " ++ md) ∧
    (∀ m : String, joinMessage (some m) none = m) ∧
    (∀ md : String, joinMessage none (some md) = md) ∧
    joinMessage none none = "" ∧
    (∀ md : String, joinMessage (some "") (some md) = md) ∧
    (∀ m : String, joinMessage (some m) (some "") = m) ∧
    (∀ line : Option Int, locLine (some line) = line) ∧
    locLine none = none ∧
    (∀ (m : String) (rest : List String),
      extract_error_details (.list (m :: rest)) =
        .ok (some { message := m, sql := none, line_number := none })) := by
  have heff : effectiveErrors (some l) eo = l := by
    simp [effectiveErrors, List.isEmpty_iff, hne]
  refine ⟨?_, ?_, ?_, ?_, rfl, ?_, ?_, fun line => rfl, rfl, fun m rest => rfl⟩
  · simp only [extract_error_details, heff, hfind]
  · intro m md hm hmd
    simp [joinMessage, List.filter, hm, hmd, strJoin]
  · intro m
    by_cases hm : m = "" <;> simp [joinMessage, List.filter, strJoin, hm]
  · intro md
    by_cases hmd : md = "" <;> simp [joinMessage, List.filter, strJoin, hmd]
  · intro md
    by_cases hmd : md = "" <;> simp [joinMessage, List.filter, strJoin, hmd]
  · intro m
    by_cases hm : m = "" <;> simp [joinMessage, List.filter, strJoin, hm]

/-- Witness for C6: a single non-benign error carrying message, details and
a `sql_error_loc` with line 7. -/
theorem claim_C6_witness :
    ([some locatedErr] : List (Option ErrObj)) ≠ [] ∧
    findFirstNonBenign [some locatedErr] = .found locatedErr ∧
    (extract_error_details (.dict (some [some locatedErr]) none (some "SELECT 1") none) =
      .ok (some { message := joinMessage locatedErr.message locatedErr.message_details
                  sql := some "SELECT 1"
                  line_number := locLine locatedErr.sql_error_loc }) ∧
     (∀ m md : String, m ≠ "" → md ≠ "" →
       joinMessage (some m) (some md) = m ++ " " ++ md) ∧
     (∀ m : String, joinMessage (some m) none = m) ∧
     (∀ md : String, joinMessage none (some md) = md) ∧
     joinMessage none none = "" ∧
     (∀ md : String, joinMessage (some "") (some md) = md) ∧
     (∀ m : String, joinMessage (some m) (some "") = m) ∧
     (∀ line : Option Int, locLine (some line) = line) ∧
     locLine none = none ∧
     (∀ (m : String) (rest : List String),
       extract_error_details (.list (m :: rest)) =
         .ok (some { message := m, sql := none, line_number := none }))) :=
  ⟨by decide, by decide,
    claim_C6 [some locatedErr] locatedErr none (some "SELECT 1") none
      (by decide) (by decide)⟩

/-- C7: per-result processing in `_get_query_results` fails with the fatal
`unexpected-query-result-status` error exactly when the polled status string
lies outside {complete, error, running, added, expired}; for any status in
the set it never fails with that error (though it may fail differently). -/
theorem claim_C7 (query_task_id status : String) (data : RawData) :
    process_result query_task_id status data = .error .unexpectedStatus ↔
      statusKnown status = false := by
  unfold process_result
  by_cases hk : statusKnown status
  · simp only [hk, Bool.not_true, Bool.false_eq_true, if_false]
    constructor
    · intro h
      exfalso
      split at h
      · simp at h
      · split at h
        · split at h <;> simp at h
        · simp at h
    · intro h
      exact absurd h (by simp)
  · have hk2 : statusKnown status = false := by
      exact Bool.not_eq_true _ ▸ (by simpa using hk)
    simp only [hk2, Bool.not_false, if_true]

/-- Witness for C7: status "weird" aborts with UnexpectedStatus; status
"complete" never does. -/
theorem claim_C7_witness :
    process_result "task_a" "weird" .other = .error .unexpectedStatus ∧
    ¬ (process_result "task_a" "complete" (.dict none none none none) =
        .error .unexpectedStatus) :=
  ⟨(claim_C7 "task_a" "weird" .other).mpr (by decide),
   fun h => absurd ((claim_C7 "task_a" "complete" (.dict none none none none)).mp h)
     (by decide)⟩

/-- C8: in fail-fast mode, once a test's terminal error (with extracted
details) is handled, every query of that test is on the
preemptive-cancellation list; and any query on that list that has not yet
launched acquires its semaphore slot, immediately releases it, and returns
without calling `create_query_task`. -/
theorem claim_C8 (s s' : HandleState) (result : QueryResult) (err : ExtractedError)
    (th : ℚ) (hstatus : result.status = "error") (herr : result.error = some err)
    (h : handle_query_result s result true th = some s') :
    (∀ q ∈ s.test.queries, q ∈ s'.preemptive_cancellations) ∧
    (∀ (preemptive : List Query) (q : Query) (task_id : String), q ∈ preemptive →
      run_query_launch preemptive q task_id =
        { acquired := true, released := true, created_task := none }) := by
  constructor
  · unfold handle_query_result at h
    rw [herr, hstatus] at h
    simp only [if_pos rfl, if_true] at h
    split at h
    · exact absurd h (by simp)
    · rw [Option.some_inj] at h
      subst h
      intro q hq
      exact List.mem_append_right _ hq
  · intro preemptive q task_id hq
    unfold run_query_launch
    rw [if_pos hq]

/-- Witness for C8: the two-error result handled on `sampleState` in
fail-fast mode. -/
theorem claim_C8_witness :
    (∀ q ∈ sampleState.test.queries, q ∈ sampleStateAfterError.preemptive_cancellations) ∧
    (∀ (preemptive : List Query) (q : Query) (task_id : String), q ∈ preemptive →
      run_query_launch preemptive q task_id =
        { acquired := true, released := true, created_task := none }) :=
  claim_C8 sampleState sampleStateAfterError twoErrorResult
    { message := "error A", sql := some "SELECT 1", line_number := none }
    5 rfl rfl rfl

/-- C9: hashing a SqlTest whose `sql` is None raises
`ValueError("Test has no SQL defined")`; with `sql` set, the hash is a
function of exactly (lookml_ref.model_name, lookml_ref.name, sql), so two
tests agreeing on those three fields hash equally. -/
theorem claim_C9 (t1 t2 : SqlTestState) :
    (t1.sql = none → t1.hash = .error "Test has no SQL defined") ∧
    (∀ s, t1.sql = some s →
      t1.hash = .ok (t1.lookml_ref.model_name, t1.lookml_ref.name, s)) ∧
    (t1.lookml_ref.model_name = t2.lookml_ref.model_name →
     t1.lookml_ref.name = t2.lookml_ref.name →
     t1.sql = t2.sql → t1.sql ≠ none → t1.hash = t2.hash) := by
  refine ⟨?_, ?_, ?_⟩
  · intro h
    simp [SqlTestState.hash, h]
  · intro s h
    simp [SqlTestState.hash, h]
  · intro h1 h2 h3 h4
    unfold SqlTestState.hash
    rw [← h3]
    cases hs : t1.sql with
    | none => exact absurd hs h4
    | some s => simp [h1, h2]

/-- Witness for C9: a sql-less test errors; `hashTest1` and `hashTest2`
agree on the hashed triple and nothing else, yet hash equally. -/
theorem claim_C9_witness :
    SqlTestState.hash { sampleTest with sql := none } = .error "Test has no SQL defined" ∧
    hashTest1.hash = .ok ("m", "e", "SELECT 1") ∧
    hashTest1.hash = hashTest2.hash :=
  ⟨(claim_C9 { sampleTest with sql := none } hashTest1).1 rfl,
   (claim_C9 hashTest1 hashTest2).2.1 "SELECT 1" rfl,
   (claim_C9 hashTest1 hashTest2).2.2 rfl rfl rfl (by decide)⟩

theorem handle_query_result_runtime (s s' : HandleState) (r : QueryResult)
    (ff : Bool) (th : ℚ) (h : handle_query_result s r ff th = some s') :
    s'.test.runtime = some (s.test.runtime.getD 0 + r.runtime.getD 0) ∧
    s'.test.lookml_ref.queried = true := by
  unfold handle_query_result at h
  dsimp only at h
  repeat' split at h
  all_goals
    first
      | (rw [Option.some_inj] at h
         subst h
         exact ⟨rfl, rfl⟩)
      | simp at h

theorem handle_all_runtime (results : List QueryResult) :
    ∀ (s s' : HandleState) (ff : Bool) (th : ℚ), results ≠ [] →
      handle_all s results ff th = some s' →
      s'.test.runtime = some (s.test.runtime.getD 0 +
        (results.map (fun r => r.runtime.getD 0)).sum) ∧
      s'.test.lookml_ref.queried = true := by
  induction results with
  | nil => intro s s' ff th hne; exact absurd rfl hne
  | cons r rest ih =>
    intro s s' ff th hne h
    unfold handle_all at h
    cases h1 : handle_query_result s r ff th with
    | none => rw [h1] at h; exact absurd h (by simp)
    | some s1 =>
      rw [h1] at h
      obtain ⟨hrt, hq⟩ := handle_query_result_runtime s s1 r ff th h1
      by_cases hrest : rest = []
      · subst hrest
        unfold handle_all at h
        rw [Option.some_inj] at h
        subst h
        refine ⟨?_, hq⟩
        rw [hrt]
        simp
      · obtain ⟨hrt2, hq2⟩ := ih s1 s' ff th hrest h
        refine ⟨?_, hq2⟩
        rw [hrt2, hrt]
        simp only [Option.getD_some, List.map_cons, List.sum_cons]
        congr 1
        ring

/-- C10: handling a nonempty sequence of terminal results for one test
accumulates the runtime — starting from an unset runtime, the final runtime
is the sum of the results' runtimes, a missing runtime counting as 0 — and
every terminal result (error as well as complete) sets `queried = true` on
the test's LookML reference. -/
theorem claim_C10 (s s' : HandleState) (results : List QueryResult) (ff : Bool)
    (th : ℚ) (h0 : s.test.runtime = none) (hne : results ≠ [])
    (h : handle_all s results ff th = some s') :
    s'.test.runtime = some ((results.map (fun r => r.runtime.getD 0)).sum) ∧
    s'.test.lookml_ref.queried = true ∧
    (∀ (t t' : HandleState) (r : QueryResult),
      handle_query_result t r ff th = some t' → t'.test.lookml_ref.queried = true) := by
  obtain ⟨h1, h2⟩ := handle_all_runtime results s s' ff th hne h
  refine ⟨?_, h2, ?_⟩
  · rw [h1, h0]
    simp
  · intro t t' r hr
    exact (handle_query_result_runtime t t' r ff th hr).2

/-- Witness for C10: two complete results with runtimes 1 and 2 on
`sampleState`. -/
theorem claim_C10_witness :
    sampleStateAfterRuns.test.runtime =
      some (([completeResult1, completeResult2].map (fun r => r.runtime.getD 0)).sum) ∧
    sampleStateAfterRuns.test.lookml_ref.queried = true ∧
    (∀ (t t' : HandleState) (r : QueryResult),
      handle_query_result t r false 5 = some t' → t'.test.lookml_ref.queried = true) :=
  claim_C10 sampleState sampleStateAfterRuns [completeResult1, completeResult2] false 5
    rfl (List.cons_ne_nil _ _) rfl

end Spectacles
